import Mathlib

/-!
Shallow embedding of `src/analysis/analysis.py` (`run_analysis`) from the
market-pulse-bitcoin repository.

The Glue job reads `timestamp, close, volume_btc` rows from the
`btc_ohlc_raw` table and runs two stages in sequence:

* Volatility stage (lines 34-43):
  `pd.to_datetime(timestamp, unit='s')` (raises `OutOfBoundsDatetime` for
  instants outside the `datetime64[ns]` range), `close.pct_change().dropna()`,
  `resample('D').std()` (sample standard deviation, `ddof=1`; every calendar
  day between the first and last return day gets a bin, bins with fewer than
  two returns get NaN), `groupby(day_name()).mean()` (NaN skipped inside a
  group; an all-NaN group is kept with a NaN mean), written with `to_sql`.
* Anomaly stage (lines 46-58): absolute first differences of `close` and
  `volume_btc`, `dropna` (drops the first row and every row touched by a NaN
  field), then `IsolationForest(n_estimators=100, contamination=0.001)`
  `.fit_predict` on the two-column feature matrix, keeping rows labelled -1.

Numeric modelling: DB cell values are `RawValue` (a rational number, a NaN,
or a non-numeric string).  Real arithmetic on floats is modelled exactly over
`ℚ`, with `Real.sqrt` for the standard deviation.  `pct_change` over a zero
previous close yields a non-finite float in the source; the model drops such
a pair and every volatility theorem below assumes nonzero closes, matching
the spec's input contract for close prices.  The unseeded, randomized
`fit_predict` is modelled as an explicit `predict` parameter; the stage's
failure conditions are checked before it is consulted, as `fit` raises
before any prediction exists.
-/

/-- Value of one DB cell as seen by pandas after `read_sql`: a finite
number, a NaN (SQL NULL / missing), or a non-numeric string. -/
inductive RawValue
  | num (q : ℚ)
  | nan
  | str (s : String)
deriving DecidableEq, Repr

/-- One row of `btc_ohlc_raw` as used by `run_analysis`:
`timestamp` in integer seconds since the epoch, `close`, `volume_btc`. -/
structure RawRecord where
  timestamp : Int
  close : RawValue
  volume_btc : RawValue
deriving DecidableEq, Repr

/-- Exceptions `run_analysis` can raise, by source site:
`outOfBoundsTimestamp` from `pd.to_datetime(..., unit='s')` on an instant
outside the `datetime64[ns]` range, `nonNumeric` from pandas arithmetic on an
object column holding a string, `emptyFit` from `IsolationForest.fit` on an
empty feature matrix. -/
inductive StageError
  | outOfBoundsTimestamp
  | nonNumeric
  | emptyFit
deriving DecidableEq, Repr

/-- Day of week, as produced by `DatetimeIndex.day_name()`. -/
inductive Weekday
  | monday
  | tuesday
  | wednesday
  | thursday
  | friday
  | saturday
  | sunday
deriving DecidableEq, Repr

/-- All seven weekdays.  The source's `groupby` sorts rows by the English
day name; no claim depends on row order, so the model uses this fixed
enumeration order instead. -/
def allWeekdays : List Weekday :=
  [.monday, .tuesday, .wednesday, .thursday, .friday, .saturday, .sunday]

/-- Largest whole number of seconds representable as `datetime64[ns]`:
`(2^63 - 1)` nanoseconds, floored to seconds. -/
def nsBound : Int := 9223372036

/-- Test used to model `pd.to_datetime(timestamp, unit='s')` raising
`OutOfBoundsDatetime` (analysis.py line 36). -/
def tsOutOfBounds (records : List RawRecord) : Bool :=
  records.any (fun r => r.timestamp > nsBound || r.timestamp < -nsBound)

/-- Does the value come from a non-numeric DB cell? -/
def RawValue.isStr : RawValue → Bool
  | .str _ => true
  | _ => false

/-- String in the `close` column: `pct_change` on the object-dtype column
raises `TypeError` (volatility stage, line 38). -/
def hasStrClose (records : List RawRecord) : Bool :=
  records.any (fun r => r.close.isStr)

/-- String in `close` or `volume_btc`: `diff` on an object-dtype column
raises `TypeError` (anomaly stage, lines 49-50). -/
def hasStrField (records : List RawRecord) : Bool :=
  records.any (fun r => r.close.isStr || r.volume_btc.isStr)

/-- Return of one consecutive close pair, as computed by `pct_change`:
defined only when both closes are numeric and the earlier one is nonzero
(a NaN operand gives NaN, removed by the following `dropna`; a zero
denominator gives a non-finite float, excluded from the model and from
every theorem's hypotheses). -/
def pctReturn : RawValue → RawValue → Option ℚ
  | .num a, .num b => if a = 0 then none else some (b / a - 1)
  | _, _ => none

/-- Line 38: `returns = volatility_df['close'].pct_change().dropna()`.
Each return keeps the timestamp of the later record of its pair; the first
(undefined) return is dropped. -/
def volReturns (records : List RawRecord) : List (Int × ℚ) :=
  (records.zip records.tail).filterMap
    (fun pc => (pctReturn pc.1.close pc.2.close).map (fun r => (pc.2.timestamp, r)))

/-- Calendar day (floored division by 86400 seconds) of a timestamp; the
source performs no timezone conversion. -/
def dayOf (t : Int) : Int := Int.fdiv t 86400

/-- Days covered by `resample('D')` over the return series: every calendar
day from the first to the last return's day, gap days included; empty when
there are no returns. -/
def dayRange (records : List RawRecord) : List Int :=
  match (volReturns records).map (fun p => dayOf p.1) with
  | [] => []
  | d :: ds =>
    let lo := ds.foldl min d
    let hi := ds.foldl max d
    (List.range (hi - lo + 1).toNat).map (fun i => lo + i)

/-- Returns falling in the daily bin of day `d`. -/
def bucketReturns (records : List RawRecord) (d : Int) : List ℚ :=
  (volReturns records).filterMap
    (fun p => if dayOf p.1 = d then some p.2 else none)

/-- Sample variance with `ddof = 1`, the default of pandas `std` (the std
itself is its square root): `none` (NaN) for fewer than two values. -/
def sampleVar (xs : List ℚ) : Option ℚ :=
  if 2 ≤ xs.length then
    some (((xs.map (fun x => (x - xs.sum / (xs.length : ℚ)) ^ 2)).sum) /
      ((xs.length : ℚ) - 1))
  else none

/-- Line 39, squared: `daily_volatility = returns.resample('D').std()` keeps
one value per day of the range; the model stores the sample variance, the
square root being applied where the value is consumed. -/
def dailyVar (records : List RawRecord) : List (Int × Option ℚ) :=
  (dayRange records).map (fun d => (d, sampleVar (bucketReturns records d)))

/-- Weekday of a calendar day number; day 0 (1970-01-01) was a Thursday. -/
def Weekday.ofDay (d : Int) : Weekday :=
  match ((d + 3).emod 7).toNat with
  | 0 => .monday
  | 1 => .tuesday
  | 2 => .wednesday
  | 3 => .thursday
  | 4 => .friday
  | 5 => .saturday
  | _ => .sunday

/-- Defined (non-NaN) daily variances of the buckets whose day falls on
weekday `w`: the values `mean` averages inside one `groupby` group. -/
def weekdayVars (records : List RawRecord) (w : Weekday) : List ℚ :=
  (dailyVar records).filterMap
    (fun p => if Weekday.ofDay p.1 = w then p.2 else none)

/-- Does weekday `w` own at least one daily bin of the resampled range?
Exactly these weekdays appear as `groupby` keys. -/
def weekdayInRange (records : List RawRecord) (w : Weekday) : Bool :=
  (dayRange records).any (fun d => Weekday.ofDay d = w)

/-- Mean of the standard deviations whose variances are given, as
`groupby(...).mean()` computes it: NaN entries were already skipped, and a
group left with no values gets NaN (`none`), not zero. -/
noncomputable def avgStd (vars : List ℚ) : Option ℝ :=
  if vars.length = 0 then none
  else some (((vars.map (fun q : ℚ => Real.sqrt (q : ℝ))).sum) / (vars.length : ℝ))

/-- Lines 40-41: the `volatility_by_day` table, one row per weekday that
owns a daily bin, carrying the mean of that weekday's defined bucket
standard deviations (`none` models a NaN cell). -/
noncomputable def volatilityByDay (records : List RawRecord) :
    List (Weekday × Option ℝ) :=
  (allWeekdays.filter (fun w => weekdayInRange records w)).map
    (fun w => (w, avgStd (weekdayVars records w)))

/-- Volatility stage, lines 34-43: `to_datetime` bounds check first (line
36), then `pct_change` type errors (line 38), then the aggregate. -/
noncomputable def volatilityStage (records : List RawRecord) :
    Except StageError (List (Weekday × Option ℝ)) :=
  if tsOutOfBounds records then .error .outOfBoundsTimestamp
  else if hasStrClose records then .error .nonNumeric
  else .ok (volatilityByDay records)

/-- One row of the anomaly feature matrix: the absolute price and volume
first differences, keyed by the later record's timestamp. -/
structure FeatureRow where
  timestamp : Int
  price_change : ℚ
  volume_change : ℚ
deriving DecidableEq, Repr

/-- Feature row of one consecutive record pair, defined only when all four
numeric fields are present; any NaN operand propagates into the diff and
the row is removed by `dropna` (lines 49-51). -/
def featureOf (p c : RawRecord) : Option FeatureRow :=
  match p.close, p.volume_btc, c.close, c.volume_btc with
  | .num a, .num b, .num a2, .num b2 =>
    some ⟨c.timestamp, |a2 - a|, |b2 - b|⟩
  | _, _, _, _ => none

/-- Lines 49-52: `diff().abs()` on close and volume followed by `dropna`,
leaving one row per consecutive pair of fully numeric records. -/
def deriveFeatures (records : List RawRecord) : List FeatureRow :=
  (records.zip records.tail).filterMap (fun pc => featureOf pc.1 pc.2)

/-- Arguments the source passes when building the model on line 53:
`IsolationForest(n_estimators=100, contamination=0.001)`.  No
`random_state` argument appears, so sklearn's default `None` (OS-seeded
randomness) is used on every run. -/
structure IsolationForestParams where
  n_estimators : ℕ
  contamination : ℚ
  random_state : Option ℕ
deriving DecidableEq, Repr

/-- Parameter record of the one `IsolationForest` the job builds. -/
def fitModelParams : IsolationForestParams :=
  { n_estimators := 100, contamination := 1 / 1000, random_state := none }

/-- Anomaly stage, lines 46-57: object-dtype `diff` raises on strings,
`fit` raises on an empty feature matrix; otherwise the rows `fit_predict`
labels `-1` give the flagged timestamps.  The unseeded randomized ensemble
is the `predict` parameter; the failure checks precede it and do not
depend on it. -/
def anomalyStage (predict : List FeatureRow → List Int)
    (records : List RawRecord) : Except StageError (List Int) :=
  if hasStrField records then .error .nonNumeric
  else if (deriveFeatures records).length = 0 then .error .emptyFit
  else .ok (((deriveFeatures records).zip (predict (deriveFeatures records))).filterMap
    (fun fl => if fl.2 = -1 then some fl.1.timestamp else none))

/-- Observable outcome of one job run: which output tables were written
(`to_sql` runs at line 42 for volatility and line 57 for anomalies) and the
exception, if any, that terminated the run. -/
structure JobResult where
  volatility_by_day : Option (List (Weekday × Option ℝ))
  detected_anomalies : Option (List Int)
  error : Option StageError
  deriving Nonempty

/-- Whole job body: the volatility stage runs and persists first; an
exception there propagates out of `run_analysis` before the anomaly stage
starts, while an anomaly-stage exception leaves the already written
volatility table in place.  There is no try/except around either stage. -/
noncomputable def run_analysis (predict : List FeatureRow → List Int)
    (records : List RawRecord) : JobResult :=
  match volatilityStage records with
  | .error e => ⟨none, none, some e⟩
  | .ok v =>
    match anomalyStage predict records with
    | .error e => ⟨some v, none, some e⟩
    | .ok a => ⟨some v, some a, none⟩

/-- Spec-side definition, for comparison with the code: the population
standard deviation of a list of returns, `sqrt` of the mean squared
deviation (divisor `n`, not `n - 1`). -/
noncomputable def specPopulationStd (xs : List ℚ) : ℝ :=
  Real.sqrt
    ((((xs.map (fun x => (x - xs.sum / (xs.length : ℚ)) ^ 2)).sum) /
      (xs.length : ℚ) : ℚ))

/-- Degenerate stand-in for `fit_predict` labelling every row an inlier. -/
def inlierPredict (feats : List FeatureRow) : List Int :=
  feats.map (fun _ => 1)

/-- Degenerate stand-in for `fit_predict` labelling every row an outlier. -/
def outlierPredict (feats : List FeatureRow) : List Int :=
  feats.map (fun _ => -1)

/-- Three hourly records on 1970-01-01 (a Thursday) with closes 1, 2, 6:
one daily bucket holding the two returns 1 and 2. -/
def bucketDemoRecords : List RawRecord :=
  [⟨0, .num 1, .num 1⟩, ⟨3600, .num 2, .num 1⟩, ⟨7200, .num 6, .num 1⟩]

/-- The three Thursday records followed by a single Friday record: Friday's
bucket holds one return, so its sample standard deviation is NaN. -/
def gapDemoRecords : List RawRecord :=
  [⟨0, .num 1, .num 1⟩, ⟨3600, .num 2, .num 1⟩, ⟨7200, .num 6, .num 1⟩,
   ⟨86400, .num 7, .num 1⟩]

/-- Two records an hour apart with the same close price. -/
def constantPairRecords : List RawRecord :=
  [⟨0, .num 5, .num 1⟩, ⟨3600, .num 5, .num 1⟩]

/-- Three records two hours apart with the same close price. -/
def constantTriRecords : List RawRecord :=
  [⟨0, .num 5, .num 1⟩, ⟨3600, .num 5, .num 2⟩, ⟨7200, .num 5, .num 3⟩]

/-- Two records an hour apart with different closes: a single return. -/
def nonconstPairRecords : List RawRecord :=
  [⟨0, .num 1, .num 2⟩, ⟨3600, .num 2, .num 4⟩]

/-- A single fully numeric record. -/
def singleRecord : List RawRecord :=
  [⟨0, .num 3, .num 7⟩]

/-- Three numeric records whose timestamps exceed the `datetime64[ns]`
range, so `pd.to_datetime` raises in the volatility stage while the anomaly
stage, which never converts the index, can process them. -/
def oobTimestampRecords : List RawRecord :=
  [⟨10000000000, .num 1, .num 1⟩, ⟨10000000060, .num 2, .num 3⟩,
   ⟨10000000120, .num 4, .num 9⟩]

/-- Three strictly increasing numeric records a minute apart. -/
def tripleRecords : List RawRecord :=
  [⟨0, .num 1, .num 1⟩, ⟨60, .num 2, .num 3⟩, ⟨120, .num 5, .num 4⟩]

/-- Four records whose second close is NaN: rows 2 and 3 lose a defined
diff, leaving one feature row, for the last record. -/
def nanDemoRecords : List RawRecord :=
  [⟨0, .num 1, .num 1⟩, ⟨60, .nan, .num 2⟩, ⟨120, .num 3, .num 4⟩,
   ⟨180, .num 5, .num 6⟩]

/-!  Helper lemmas shared by the claim theorems.  -/

lemma volReturns_numeric (records : List RawRecord) (cs : List ℚ)
    (hcs : records.map RawRecord.close = cs.map RawValue.num)
    (hnz : ∀ c ∈ cs, c ≠ 0) :
    volReturns records =
      (records.tail.map RawRecord.timestamp).zip
        (List.zipWith (fun b a => b / a - 1) cs.tail cs) := by
  induction records generalizing cs with
  | nil =>
    rcases cs with _ | ⟨c, cs'⟩
    · simp [volReturns]
    · simp at hcs
  | cons r rs ih =>
    rcases cs with _ | ⟨c, cs'⟩
    · simp at hcs
    · simp only [List.map_cons, List.cons.injEq] at hcs
      obtain ⟨hr, hrest⟩ := hcs
      rcases rs with _ | ⟨r2, rs2⟩
      · rcases cs' with _ | ⟨c2, cs2⟩
        · simp [volReturns]
        · simp at hrest
      · rcases cs' with _ | ⟨c2, cs2⟩
        · simp at hrest
        · simp only [List.map_cons, List.cons.injEq] at hrest
          obtain ⟨hr2, hrest2⟩ := hrest
          have hc : c ≠ 0 := hnz c (by simp)
          have step : volReturns (r :: r2 :: rs2) =
              (r2.timestamp, c2 / c - 1) :: volReturns (r2 :: rs2) := by
            simp [volReturns, List.zip, List.filterMap_cons, pctReturn, hr, hr2, hc]
          rw [step, ih (c2 :: cs2) (by simp [hr2, hrest2])
            (fun x hx => hnz x (List.mem_cons_of_mem c hx))]
          simp [List.zip]

lemma sampleVar_of_le (xs : List ℚ) (h : 2 ≤ xs.length) :
    sampleVar xs =
      some (((xs.map (fun x => (x - xs.sum / (xs.length : ℚ)) ^ 2)).sum) /
        ((xs.length : ℚ) - 1)) := by
  unfold sampleVar
  rw [if_pos h]

lemma sampleVar_of_lt (xs : List ℚ) (h : xs.length < 2) : sampleVar xs = none := by
  unfold sampleVar
  rw [if_neg (by omega)]

lemma sampleVar_eq_some (xs : List ℚ) (q : ℚ) (h : sampleVar xs = some q) :
    2 ≤ xs.length ∧
      q = ((xs.map (fun x => (x - xs.sum / (xs.length : ℚ)) ^ 2)).sum) /
        ((xs.length : ℚ) - 1) := by
  unfold sampleVar at h
  split at h
  · injection h with h2
    exact ⟨by assumption, h2.symm⟩
  · cases h

lemma weekdayVars_eq_filterMap (records : List RawRecord) (w : Weekday) :
    weekdayVars records w =
      (dayRange records).filterMap
        (fun d => if Weekday.ofDay d = w then sampleVar (bucketReturns records d)
          else none) := by
  simp only [weekdayVars, dailyVar, List.filterMap_map]
  rfl

lemma filterMap_sampleVar_eq (w : Weekday) (g : Int → List ℚ) (ds : List Int) :
    (ds.filterMap (fun d => if Weekday.ofDay d = w then sampleVar (g d) else none)) =
      ((ds.filter (fun d => decide (Weekday.ofDay d = w) &&
          decide (2 ≤ (g d).length))).map
        (fun d => ((g d).map
            (fun x => (x - (g d).sum / ((g d).length : ℚ)) ^ 2)).sum /
          (((g d).length : ℚ) - 1))) := by
  induction ds with
  | nil => simp
  | cons d ds ih =>
    rw [List.filterMap_cons, List.filter_cons]
    by_cases hw : Weekday.ofDay d = w
    · by_cases hlen : 2 ≤ (g d).length
      · rw [if_pos hw, sampleVar_of_le (g d) hlen]
        simp [hw, hlen, ih]
      · rw [if_pos hw, sampleVar_of_lt (g d) (by omega)]
        simp [hw, hlen, ih]
    · rw [if_neg hw]
      simp [hw, ih]

lemma mem_allWeekdays (w : Weekday) : w ∈ allWeekdays := by
  cases w <;> simp [allWeekdays]

lemma mem_volatilityByDay_iff (records : List RawRecord) (w : Weekday)
    (v : Option ℝ) :
    (w, v) ∈ volatilityByDay records ↔
      (weekdayInRange records w = true ∧ v = avgStd (weekdayVars records w)) := by
  constructor
  · intro h
    simp only [volatilityByDay, List.mem_map, List.mem_filter] at h
    obtain ⟨a, ⟨-, ha⟩, heq⟩ := h
    rw [Prod.mk.injEq] at heq
    obtain ⟨rfl, hv⟩ := heq
    exact ⟨ha, hv.symm⟩
  · rintro ⟨h1, rfl⟩
    simp only [volatilityByDay, List.mem_map, List.mem_filter]
    exact ⟨w, ⟨mem_allWeekdays w, h1⟩, rfl⟩

lemma featureOf_eq_some (p c : RawRecord) (f : FeatureRow)
    (h : featureOf p c = some f) :
    ∃ a b a2 b2, p.close = RawValue.num a ∧ p.volume_btc = RawValue.num b ∧
      c.close = RawValue.num a2 ∧ c.volume_btc = RawValue.num b2 ∧
      f = ⟨c.timestamp, |a2 - a|, |b2 - b|⟩ := by
  unfold featureOf at h
  split at h
  · injection h with h2
    exact ⟨_, _, _, _, by assumption, by assumption, by assumption, by assumption,
      h2.symm⟩
  · cases h

lemma mem_deriveFeatures (records : List RawRecord) (f : FeatureRow)
    (hf : f ∈ deriveFeatures records) :
    ∃ p c, (p, c) ∈ records.zip records.tail ∧ featureOf p c = some f := by
  simp only [deriveFeatures, List.mem_filterMap, Prod.exists] at hf
  obtain ⟨p, c, hmem, heq⟩ := hf
  exact ⟨p, c, hmem, heq⟩

lemma deriveFeatures_timestamp_mem (records : List RawRecord) (f : FeatureRow)
    (hf : f ∈ deriveFeatures records) :
    f.timestamp ∈ records.tail.map RawRecord.timestamp := by
  obtain ⟨p, c, hmem, heq⟩ := mem_deriveFeatures records f hf
  obtain ⟨a, b, a2, b2, -, -, -, -, rfl⟩ := featureOf_eq_some p c f heq
  exact List.mem_map_of_mem RawRecord.timestamp (List.of_mem_zip hmem).2

/-!  Evaluation lemmas on the concrete demonstration inputs.  -/

lemma ofDay_zero : Weekday.ofDay 0 = Weekday.thursday := by decide

lemma ofDay_one : Weekday.ofDay 1 = Weekday.friday := by decide

lemma avgStd_nil : avgStd [] = none := by simp [avgStd]

lemma volReturns_gapDemo :
    volReturns gapDemoRecords = [(3600, 1), (7200, 2), (86400, 1/6)] := by
  norm_num [volReturns, pctReturn, gapDemoRecords, List.filterMap_cons]

lemma dayRange_gapDemo : dayRange gapDemoRecords = [0, 1] := by
  simp only [dayRange, volReturns_gapDemo, List.map_cons, List.map_nil]
  decide

lemma bucketReturns_gapDemo_zero : bucketReturns gapDemoRecords 0 = [1, 2] := by
  simp only [bucketReturns, volReturns_gapDemo]
  norm_num [List.filterMap_cons, dayOf, Int.fdiv]

lemma bucketReturns_gapDemo_one : bucketReturns gapDemoRecords 1 = [1/6] := by
  simp only [bucketReturns, volReturns_gapDemo]
  norm_num [List.filterMap_cons, dayOf, Int.fdiv]

lemma sampleVar_pair_demo : sampleVar [1, 2] = some (1/2) := by
  norm_num [sampleVar]

lemma sampleVar_single (q : ℚ) : sampleVar [q] = none := by
  norm_num [sampleVar]

lemma weekdayVars_gapDemo_thursday :
    weekdayVars gapDemoRecords Weekday.thursday = [1/2] := by
  simp [weekdayVars, dailyVar, dayRange_gapDemo, List.filterMap_cons,
    bucketReturns_gapDemo_zero, bucketReturns_gapDemo_one, sampleVar_pair_demo,
    sampleVar_single, ofDay_zero, ofDay_one]

lemma weekdayVars_gapDemo_friday :
    weekdayVars gapDemoRecords Weekday.friday = [] := by
  simp [weekdayVars, dailyVar, dayRange_gapDemo, List.filterMap_cons,
    bucketReturns_gapDemo_zero, bucketReturns_gapDemo_one, sampleVar_pair_demo,
    sampleVar_single, ofDay_zero, ofDay_one]

lemma filter_weekdays_demo :
    allWeekdays.filter (fun w => List.any [0, 1] (fun d => decide (Weekday.ofDay d = w)))
      = [Weekday.thursday, Weekday.friday] := by decide

lemma volatilityByDay_gapDemo :
    volatilityByDay gapDemoRecords =
      [(Weekday.thursday, avgStd [1/2]), (Weekday.friday, none)] := by
  simp only [volatilityByDay, weekdayInRange, dayRange_gapDemo]
  rw [filter_weekdays_demo]
  simp [weekdayVars_gapDemo_thursday, weekdayVars_gapDemo_friday, avgStd_nil]

lemma filter_weekdays_thu :
    allWeekdays.filter (fun w => List.any [0] (fun d => decide (Weekday.ofDay d = w)))
      = [Weekday.thursday] := by decide

lemma volReturns_bucketDemo :
    volReturns bucketDemoRecords = [(3600, 1), (7200, 2)] := by
  norm_num [volReturns, pctReturn, bucketDemoRecords, List.filterMap_cons]

lemma dayRange_bucketDemo : dayRange bucketDemoRecords = [0] := by
  simp only [dayRange, volReturns_bucketDemo, List.map_cons, List.map_nil]
  decide

lemma bucketReturns_bucketDemo_zero : bucketReturns bucketDemoRecords 0 = [1, 2] := by
  simp only [bucketReturns, volReturns_bucketDemo]
  norm_num [List.filterMap_cons, dayOf, Int.fdiv]

lemma weekdayVars_bucketDemo_thursday :
    weekdayVars bucketDemoRecords Weekday.thursday = [1/2] := by
  simp [weekdayVars, dailyVar, dayRange_bucketDemo, List.filterMap_cons,
    bucketReturns_bucketDemo_zero, sampleVar_pair_demo, ofDay_zero]

lemma volatilityByDay_bucketDemo :
    volatilityByDay bucketDemoRecords = [(Weekday.thursday, avgStd [1/2])] := by
  simp only [volatilityByDay, weekdayInRange, dayRange_bucketDemo]
  rw [filter_weekdays_thu]
  simp [weekdayVars_bucketDemo_thursday]

lemma volReturns_constantPair :
    volReturns constantPairRecords = [(3600, 0)] := by
  norm_num [volReturns, pctReturn, constantPairRecords, List.filterMap_cons]

lemma dayRange_constantPair : dayRange constantPairRecords = [0] := by
  simp only [dayRange, volReturns_constantPair, List.map_cons, List.map_nil]
  decide

lemma bucketReturns_constantPair_zero :
    bucketReturns constantPairRecords 0 = [0] := by
  simp only [bucketReturns, volReturns_constantPair]
  norm_num [List.filterMap_cons, dayOf, Int.fdiv]

lemma weekdayVars_constantPair_thursday :
    weekdayVars constantPairRecords Weekday.thursday = [] := by
  simp [weekdayVars, dailyVar, dayRange_constantPair, List.filterMap_cons,
    bucketReturns_constantPair_zero, sampleVar_single, ofDay_zero]

lemma volatilityByDay_constantPair :
    volatilityByDay constantPairRecords = [(Weekday.thursday, none)] := by
  simp only [volatilityByDay, weekdayInRange, dayRange_constantPair]
  rw [filter_weekdays_thu]
  simp [weekdayVars_constantPair_thursday, avgStd_nil]

lemma volReturns_nonconstPair :
    volReturns nonconstPairRecords = [(3600, 1)] := by
  norm_num [volReturns, pctReturn, nonconstPairRecords, List.filterMap_cons]

lemma dayRange_nonconstPair : dayRange nonconstPairRecords = [0] := by
  simp only [dayRange, volReturns_nonconstPair, List.map_cons, List.map_nil]
  decide

lemma bucketReturns_nonconstPair_zero :
    bucketReturns nonconstPairRecords 0 = [1] := by
  simp only [bucketReturns, volReturns_nonconstPair]
  norm_num [List.filterMap_cons, dayOf, Int.fdiv]

lemma weekdayVars_nonconstPair_thursday :
    weekdayVars nonconstPairRecords Weekday.thursday = [] := by
  simp [weekdayVars, dailyVar, dayRange_nonconstPair, List.filterMap_cons,
    bucketReturns_nonconstPair_zero, sampleVar_single, ofDay_zero]

lemma volatilityByDay_nonconstPair :
    volatilityByDay nonconstPairRecords = [(Weekday.thursday, none)] := by
  simp only [volatilityByDay, weekdayInRange, dayRange_nonconstPair]
  rw [filter_weekdays_thu]
  simp [weekdayVars_nonconstPair_thursday, avgStd_nil]

lemma volReturns_constantTri :
    volReturns constantTriRecords = [(3600, 0), (7200, 0)] := by
  norm_num [volReturns, pctReturn, constantTriRecords, List.filterMap_cons]

lemma dayRange_constantTri : dayRange constantTriRecords = [0] := by
  simp only [dayRange, volReturns_constantTri, List.map_cons, List.map_nil]
  decide

lemma bucketReturns_constantTri_zero :
    bucketReturns constantTriRecords 0 = [0, 0] := by
  simp only [bucketReturns, volReturns_constantTri]
  norm_num [List.filterMap_cons, dayOf, Int.fdiv]

lemma sampleVar_zero_pair : sampleVar [0, 0] = some 0 := by
  norm_num [sampleVar]

lemma weekdayVars_constantTri_thursday :
    weekdayVars constantTriRecords Weekday.thursday = [0] := by
  simp [weekdayVars, dailyVar, dayRange_constantTri, List.filterMap_cons,
    bucketReturns_constantTri_zero, sampleVar_zero_pair, ofDay_zero]

lemma volatilityByDay_constantTri :
    volatilityByDay constantTriRecords = [(Weekday.thursday, avgStd [0])] := by
  simp only [volatilityByDay, weekdayInRange, dayRange_constantTri]
  rw [filter_weekdays_thu]
  simp [weekdayVars_constantTri_thursday]

lemma deriveFeatures_nonconstPair :
    deriveFeatures nonconstPairRecords = [⟨3600, 1, 2⟩] := by
  norm_num [deriveFeatures, featureOf, nonconstPairRecords, List.filterMap_cons]

lemma anomalyStage_nonconstPair :
    anomalyStage inlierPredict nonconstPairRecords = Except.ok [] := by
  simp only [anomalyStage, deriveFeatures_nonconstPair]
  norm_num [hasStrField, nonconstPairRecords, RawValue.isStr, inlierPredict,
    List.filterMap_cons]

lemma deriveFeatures_triple :
    deriveFeatures tripleRecords = [⟨60, 1, 2⟩, ⟨120, 3, 1⟩] := by
  norm_num [deriveFeatures, featureOf, tripleRecords, List.filterMap_cons]

lemma anomalyStage_triple :
    anomalyStage outlierPredict tripleRecords = Except.ok [60, 120] := by
  simp only [anomalyStage, deriveFeatures_triple]
  norm_num [hasStrField, tripleRecords, RawValue.isStr, outlierPredict,
    List.filterMap_cons]

lemma deriveFeatures_nanDemo :
    deriveFeatures nanDemoRecords = [⟨180, 2, 2⟩] := by
  norm_num [deriveFeatures, featureOf, nanDemoRecords, List.filterMap_cons]

lemma tsOutOfBounds_oob : tsOutOfBounds oobTimestampRecords = true := by decide

lemma volatilityStage_oob :
    volatilityStage oobTimestampRecords = Except.error StageError.outOfBoundsTimestamp := by
  simp [volatilityStage, tsOutOfBounds_oob]

lemma deriveFeatures_oob :
    deriveFeatures oobTimestampRecords =
      [⟨10000000060, 1, 2⟩, ⟨10000000120, 2, 6⟩] := by
  norm_num [deriveFeatures, featureOf, oobTimestampRecords, List.filterMap_cons]

lemma anomalyStage_oob :
    anomalyStage inlierPredict oobTimestampRecords = Except.ok [] := by
  simp only [anomalyStage, deriveFeatures_oob]
  norm_num [hasStrField, oobTimestampRecords, RawValue.isStr, inlierPredict,
    List.filterMap_cons]

lemma run_analysis_oob :
    run_analysis inlierPredict oobTimestampRecords =
      ⟨none, none, some StageError.outOfBoundsTimestamp⟩ := by
  simp [run_analysis, volatilityStage_oob]

lemma volReturns_single : volReturns singleRecord = [] := rfl

/-!  Additional helper lemmas.  -/

lemma map_fst_pairing {α β : Type} (g : α → β) (l : List α) :
    (l.map (fun w => (w, g w))).map Prod.fst = l := by
  induction l with
  | nil => rfl
  | cons a l ih => simp [ih]

lemma avgStd_zeros (vars : List ℚ) (h : ∀ q ∈ vars, q = 0) (hne : vars ≠ []) :
    avgStd vars = some 0 := by
  unfold avgStd
  rw [if_neg (by simpa using hne)]
  have hs : (vars.map (fun q : ℚ => Real.sqrt (q : ℝ))).sum = 0 := by
    refine List.sum_eq_zero ?_
    intro y hy
    simp only [List.mem_map] at hy
    obtain ⟨x, hx, hxy⟩ := hy
    rw [← hxy, h x hx]
    simp
  rw [hs, zero_div]

/-!  Claim theorems.  -/

/-- Claim C1, amended: every emitted weekday row carries the mean, over
exactly that weekday's calendar buckets holding at least two returns, of
the SAMPLE standard deviation of the bucket (squared deviations from the
bucket mean divided by `n - 1`, pandas `ddof=1`) — not the population
standard deviation; buckets with fewer than two returns are dropped from
the mean and do not contribute zero. -/
theorem C1_sample_std (records : List RawRecord) (w : Weekday) (v : Option ℝ)
    (hmem : (w, v) ∈ volatilityByDay records) :
    v = avgStd
      (((dayRange records).filter
        (fun d => decide (Weekday.ofDay d = w) &&
          decide (2 ≤ (bucketReturns records d).length))).map
        (fun d => ((bucketReturns records d).map
            (fun x => (x - (bucketReturns records d).sum /
              ((bucketReturns records d).length : ℚ)) ^ 2)).sum /
          (((bucketReturns records d).length : ℚ) - 1))) := by
  rw [((mem_volatilityByDay_iff records w v).mp hmem).2, weekdayVars_eq_filterMap]
  exact congrArg avgStd
    (filterMap_sampleVar_eq w (fun d => bucketReturns records d) (dayRange records))

/-- Claim C1 witness: the characterization applied to the Thursday row of
the three-record demonstration input. -/
theorem C1_sample_std_witness :
    avgStd (weekdayVars bucketDemoRecords Weekday.thursday) =
      avgStd
        (((dayRange bucketDemoRecords).filter
          (fun d => decide (Weekday.ofDay d = Weekday.thursday) &&
            decide (2 ≤ (bucketReturns bucketDemoRecords d).length))).map
          (fun d => ((bucketReturns bucketDemoRecords d).map
              (fun x => (x - (bucketReturns bucketDemoRecords d).sum /
                ((bucketReturns bucketDemoRecords d).length : ℚ)) ^ 2)).sum /
            (((bucketReturns bucketDemoRecords d).length : ℚ) - 1))) :=
  C1_sample_std bucketDemoRecords Weekday.thursday
    (avgStd (weekdayVars bucketDemoRecords Weekday.thursday))
    (by rw [volatilityByDay_bucketDemo, weekdayVars_bucketDemo_thursday]
        exact List.mem_singleton.mpr rfl)

/-- Claim C1 counterexample: the bucket of returns `[1, 2]` has population
standard deviation exactly `1/2`, but the code emits `sqrt (1/2)` (the
sample standard deviation), which differs. -/
theorem C1_counterexample :
    volatilityByDay bucketDemoRecords =
      [(Weekday.thursday, some (Real.sqrt (1/2)))] ∧
    specPopulationStd (bucketReturns bucketDemoRecords 0) = 1/2 ∧
    Real.sqrt (1/2) ≠ (1/2 : ℝ) := by
  refine ⟨?_, ?_, ?_⟩
  · rw [volatilityByDay_bucketDemo]
    norm_num [avgStd]
  · rw [bucketReturns_bucketDemo_zero]
    unfold specPopulationStd
    norm_num
    rw [show (4:ℝ) = 2^2 by norm_num, Real.sqrt_sq (by norm_num : (0:ℝ) ≤ 2)]
    norm_num
  · intro h
    have h2 := congrArg (fun x : ℝ => x ^ 2) h
    simp only [Real.sq_sqrt (by norm_num : (0:ℝ) ≤ 1/2)] at h2
    norm_num at h2

/-- Claim C2: for a close-price series of at least two records with
numeric nonzero closes, the return series is exactly
`close_t / close_prev - 1` per consecutive pair keyed by the later
timestamp, the first (undefined) return is dropped, and the series has
exactly one fewer element than the input. -/
theorem C2_returns_shape (records : List RawRecord) (cs : List ℚ)
    (hcs : records.map RawRecord.close = cs.map RawValue.num)
    (hnz : ∀ c ∈ cs, c ≠ 0) (hlen : 2 ≤ records.length) :
    (volReturns records).length + 1 = records.length ∧
    volReturns records =
      (records.tail.map RawRecord.timestamp).zip
        (List.zipWith (fun b a => b / a - 1) cs.tail cs) := by
  have he := volReturns_numeric records cs hcs hnz
  have hcl : cs.length = records.length := by
    have h2 := congrArg List.length hcs
    simpa using h2.symm
  constructor
  · rw [he, List.length_zip, List.length_map, List.length_zipWith,
      List.length_tail, List.length_tail, hcl]
    omega
  · exact he

/-- Claim C2 witness at the concrete three-record input. -/
theorem C2_returns_shape_witness :
    (volReturns bucketDemoRecords).length + 1 = bucketDemoRecords.length :=
  (C2_returns_shape bucketDemoRecords [1, 2, 6] rfl
    (by intro c hc; fin_cases hc <;> norm_num) (by norm_num [bucketDemoRecords])).1

/-- Claim C3, amended: the volatility output is produced whenever the
volatility stage succeeds, regardless of what the anomaly stage does; but
a volatility-stage failure terminates the job before the anomaly stage
runs, so no anomaly output is produced then. -/
theorem C3_failure_propagation (predict : List FeatureRow → List Int)
    (records : List RawRecord) :
    ((∃ e, volatilityStage records = Except.error e) →
      (run_analysis predict records).volatility_by_day = none ∧
      (run_analysis predict records).detected_anomalies = none) ∧
    (∀ v, volatilityStage records = Except.ok v →
      (run_analysis predict records).volatility_by_day = some v) := by
  cases h : volatilityStage records with
  | error e =>
    refine ⟨fun _ => ?_, fun v hv => ?_⟩
    · simp [run_analysis, h]
    · cases hv
  | ok v =>
    refine ⟨fun he => ?_, fun v2 hv2 => ?_⟩
    · obtain ⟨e, he⟩ := he
      cases he
    · injection hv2 with h2
      subst h2
      cases h3 : anomalyStage predict records <;> simp [run_analysis, h, h3]

/-- Claim C3 witness: with out-of-range timestamps the volatility stage
fails and the job produces neither output table. -/
theorem C3_failure_propagation_witness :
    (run_analysis inlierPredict oobTimestampRecords).volatility_by_day = none ∧
    (run_analysis inlierPredict oobTimestampRecords).detected_anomalies = none :=
  (C3_failure_propagation inlierPredict oobTimestampRecords).1
    ⟨StageError.outOfBoundsTimestamp, volatilityStage_oob⟩

/-- Claim C3 counterexample: an input on which the anomaly stage alone
succeeds, but the volatility stage raises first and the job ends with no
anomaly output — the failure is not independent. -/
theorem C3_counterexample :
    volatilityStage oobTimestampRecords =
      Except.error StageError.outOfBoundsTimestamp ∧
    anomalyStage inlierPredict oobTimestampRecords = Except.ok [] ∧
    (run_analysis inlierPredict oobTimestampRecords).detected_anomalies = none ∧
    (run_analysis inlierPredict oobTimestampRecords).error =
      some StageError.outOfBoundsTimestamp := by
  refine ⟨volatilityStage_oob, anomalyStage_oob, ?_, ?_⟩ <;>
    simp [run_analysis_oob]

/-- Claim C4, amended: the table has at most 7 rows with pairwise distinct
weekdays, and a weekday appears exactly when it owns at least one daily
bin of the resampled range — including weekdays all of whose buckets are
under-populated, which are emitted with an undefined (NaN) mean rather
than omitted. -/
theorem C4_weekday_rows (records : List RawRecord) :
    (volatilityByDay records).length ≤ 7 ∧
    ((volatilityByDay records).map Prod.fst).Nodup ∧
    (∀ w, (∃ v, (w, v) ∈ volatilityByDay records) ↔
      weekdayInRange records w = true) ∧
    (∀ w, weekdayInRange records w = true → weekdayVars records w = [] →
      (w, (none : Option ℝ)) ∈ volatilityByDay records) := by
  refine ⟨?_, ?_, ?_, ?_⟩
  · calc (volatilityByDay records).length
        = (allWeekdays.filter (fun w => weekdayInRange records w)).length := by
          simp [volatilityByDay]
      _ ≤ allWeekdays.length := List.length_filter_le _ _
      _ = 7 := rfl
  · have h1 : ((volatilityByDay records).map Prod.fst) =
        allWeekdays.filter (fun w => weekdayInRange records w) := by
      simp only [volatilityByDay]
      exact map_fst_pairing _ _
    rw [h1]
    exact List.Nodup.filter _ (by decide)
  · intro w
    constructor
    · rintro ⟨v, hv⟩
      exact ((mem_volatilityByDay_iff records w v).mp hv).1
    · intro h
      exact ⟨_, (mem_volatilityByDay_iff records w _).mpr ⟨h, rfl⟩⟩
  · intro w h hvars
    exact (mem_volatilityByDay_iff records w none).mpr
      ⟨h, by rw [hvars, avgStd_nil]⟩

/-- Claim C4 witness: Thursday owns the only bin of the constant pair
input, its bucket is under-populated, and a NaN row is emitted for it. -/
theorem C4_weekday_rows_witness :
    (Weekday.thursday, (none : Option ℝ)) ∈ volatilityByDay constantPairRecords :=
  (C4_weekday_rows constantPairRecords).2.2.2 Weekday.thursday
    (by rw [weekdayInRange, dayRange_constantPair]; decide)
    weekdayVars_constantPair_thursday

/-- Claim C4 counterexample: Friday has no contributing bucket (no bucket
with a defined volatility), yet a Friday row is emitted, with an undefined
value instead of being omitted. -/
theorem C4_counterexample :
    (Weekday.friday, (none : Option ℝ)) ∈ volatilityByDay gapDemoRecords ∧
    weekdayVars gapDemoRecords Weekday.friday = [] := by
  refine ⟨?_, weekdayVars_gapDemo_friday⟩
  rw [volatilityByDay_gapDemo]
  simp

/-- Claim C7, amended: with all-identical closes every emitted weekday row
is either exactly zero (when the weekday has a bucket with at least two
returns) or undefined/NaN (when every bucket of that weekday is
under-populated) — never any other value. -/
theorem C7_constant_close (records : List RawRecord) (c : ℚ)
    (hconst : ∀ r ∈ records, r.close = RawValue.num c)
    (_hlen : 2 ≤ records.length) :
    ∀ w v, (w, v) ∈ volatilityByDay records → v = none ∨ v = some 0 := by
  have hret : ∀ p ∈ volReturns records, p.2 = 0 := by
    intro p hp
    simp only [volReturns, List.mem_filterMap] at hp
    obtain ⟨pc, hpc, heq⟩ := hp
    obtain ⟨p1, p2⟩ := pc
    have h1 : p1.close = RawValue.num c :=
      hconst p1 (List.of_mem_zip hpc).1
    have h2 : p2.close = RawValue.num c :=
      hconst p2 (List.mem_of_mem_tail (List.of_mem_zip hpc).2)
    rw [h1, h2] at heq
    by_cases hc : c = 0
    · simp [pctReturn, hc] at heq
    · simp only [pctReturn, if_neg hc, Option.map_some] at heq
      injection heq with heq2
      rw [← heq2]
      simp [div_self hc]
  intro w v hmem
  have hv := ((mem_volatilityByDay_iff records w v).mp hmem).2
  have hvars : ∀ q ∈ weekdayVars records w, q = 0 := by
    intro q hq
    rw [weekdayVars_eq_filterMap] at hq
    simp only [List.mem_filterMap] at hq
    obtain ⟨d, hd, hcond⟩ := hq
    split at hcond
    · obtain ⟨hlen2, hq_eq⟩ := sampleVar_eq_some _ _ hcond
      have hzero : ∀ x ∈ bucketReturns records d, x = 0 := by
        intro x hx
        simp only [bucketReturns, List.mem_filterMap] at hx
        obtain ⟨p, hp, hxe⟩ := hx
        split at hxe
        · injection hxe with hxe2
          rw [← hxe2]
          exact hret p hp
        · cases hxe
      have hsum : (bucketReturns records d).sum = 0 := List.sum_eq_zero hzero
      rw [hq_eq, hsum]
      have hsq : ((bucketReturns records d).map
          (fun x => (x - 0 / ((bucketReturns records d).length : ℚ)) ^ 2)).sum
          = 0 := by
        refine List.sum_eq_zero ?_
        intro y hy
        simp only [List.mem_map] at hy
        obtain ⟨x, hx, hxy⟩ := hy
        rw [← hxy, hzero x hx]
        norm_num
      rw [hsq, zero_div]
    · cases hcond
  rcases hnil : weekdayVars records w with _ | ⟨q0, qs⟩
  · left
    rw [hv, hnil, avgStd_nil]
  · right
    rw [hv]
    exact avgStd_zeros _ hvars (by rw [hnil]; simp)

/-- Claim C7 witness: three constant-close records in one bucket give a
Thursday row whose value the theorem pins to zero or NaN. -/
theorem C7_constant_close_witness :
    avgStd (weekdayVars constantTriRecords Weekday.thursday) = none ∨
    avgStd (weekdayVars constantTriRecords Weekday.thursday) = some 0 :=
  C7_constant_close constantTriRecords 5
    (by intro r hr; fin_cases hr <;> rfl)
    (by norm_num [constantTriRecords])
    Weekday.thursday (avgStd (weekdayVars constantTriRecords Weekday.thursday))
    (by rw [volatilityByDay_constantTri, weekdayVars_constantTri_thursday]
        exact List.mem_singleton.mpr rfl)

/-- Claim C7 counterexample: a constant-close series of two records
produces a present weekday row whose `avg_volatility` is undefined (NaN),
not exactly `0.0`. -/
theorem C7_counterexample :
    2 ≤ constantPairRecords.length ∧
    (∀ r ∈ constantPairRecords, r.close = RawValue.num 5) ∧
    volatilityByDay constantPairRecords = [(Weekday.thursday, none)] := by
  refine ⟨by norm_num [constantPairRecords], ?_, volatilityByDay_constantPair⟩
  intro r hr
  fin_cases hr <;> rfl

/-- Claim C8, amended: with in-range timestamps and numeric closes the
volatility stage never raises; a series with no returns at all yields an
empty table; but when returns exist and every bucket holds fewer than two
of them, the table is not empty — it carries one undefined (NaN) row per
weekday in range. -/
theorem C8_underpopulated_buckets (records : List RawRecord)
    (hts : tsOutOfBounds records = false)
    (hstr : hasStrClose records = false) :
    (volatilityStage records = Except.ok (volatilityByDay records)) ∧
    (volReturns records = [] → volatilityStage records = Except.ok []) ∧
    ((∀ d, (bucketReturns records d).length < 2) →
      ∀ p ∈ volatilityByDay records, p.2 = none) := by
  refine ⟨?_, ?_, ?_⟩
  · simp [volatilityStage, hts, hstr]
  · intro h
    have hday : dayRange records = [] := by
      simp [dayRange, h]
    have hvol : volatilityByDay records = [] := by
      simp [volatilityByDay, weekdayInRange, hday]
    simp [volatilityStage, hts, hstr, hvol]
  · intro h p hp
    obtain ⟨w, v⟩ := p
    have hv := ((mem_volatilityByDay_iff records w v).mp hp).2
    have hvars : weekdayVars records w = [] := by
      rw [weekdayVars_eq_filterMap]
      refine List.eq_nil_iff_forall_not_mem.mpr ?_
      intro q hq
      simp only [List.mem_filterMap] at hq
      obtain ⟨d, hd, hcond⟩ := hq
      split at hcond
      · obtain ⟨hlen2, -⟩ := sampleVar_eq_some _ _ hcond
        exact absurd hlen2 (by have := h d; omega)
      · cases hcond
    show v = none
    rw [hv, hvars, avgStd_nil]

/-- Claim C8 witness: the single-record series yields an empty table and
no error. -/
theorem C8_underpopulated_buckets_witness :
    volatilityStage singleRecord = Except.ok [] :=
  (C8_underpopulated_buckets singleRecord (by decide) (by decide)).2.1
    volReturns_single

/-- Claim C8 counterexample: two same-day records leave one return, so
every bucket is under-populated, yet the emitted result is a NaN row for
Thursday rather than the empty result the claim requires. -/
theorem C8_counterexample :
    (∀ d, (bucketReturns nonconstPairRecords d).length < 2) ∧
    volatilityByDay nonconstPairRecords = [(Weekday.thursday, none)] ∧
    volatilityByDay nonconstPairRecords ≠ [] := by
  refine ⟨?_, volatilityByDay_nonconstPair, ?_⟩
  · intro d
    by_cases hd : d = 0
    · rw [hd, bucketReturns_nonconstPair_zero]
      norm_num
    · have hbe : bucketReturns nonconstPairRecords d = [] := by
        rw [bucketReturns, volReturns_nonconstPair]
        have hne : dayOf 3600 ≠ d := by
          rw [show dayOf 3600 = 0 from rfl]
          omega
        simp [List.filterMap_cons, hne]
      rw [hbe]
      norm_num
  · rw [volatilityByDay_nonconstPair]
    simp

/-- Claim C5 counterexample: the job builds its single `IsolationForest`
with no `random_state` argument, so `random_state` is `None` on every run:
no seed parameter is accepted and seeded reproducibility is unavailable. -/
theorem C5_counterexample : fitModelParams.random_state = none := rfl

/-- Claim C5, amended: the detector hard-codes `n_estimators = 100` and
`contamination = 0.001` and passes no random seed. -/
theorem C5_no_seed_parameter :
    fitModelParams.n_estimators = 100 ∧
    fitModelParams.contamination = 1 / 1000 ∧
    fitModelParams.random_state = none :=
  ⟨rfl, rfl, rfl⟩

/-- Claim C6, amended: the anomaly stage fails with the object-dtype
arithmetic error exactly when a price or volume field is non-numeric,
fails with the empty-fit error exactly when no usable record remains after
feature derivation, and succeeds otherwise — in particular a single usable
record (fewer than 2) is not an error. -/
theorem C6_failure_characterization (predict : List FeatureRow → List Int)
    (records : List RawRecord) :
    (anomalyStage predict records = Except.error StageError.nonNumeric ↔
      hasStrField records = true) ∧
    (anomalyStage predict records = Except.error StageError.emptyFit ↔
      (hasStrField records = false ∧ deriveFeatures records = [])) ∧
    ((∃ out, anomalyStage predict records = Except.ok out) ↔
      (hasStrField records = false ∧ deriveFeatures records ≠ [])) := by
  by_cases h1 : hasStrField records
  · refine ⟨?_, ?_, ?_⟩ <;> simp [anomalyStage, h1]
  · rcases h2 : deriveFeatures records with _ | ⟨f, fs⟩ <;>
      refine ⟨?_, ?_, ?_⟩ <;>
      simp [anomalyStage, h1, h2]

/-- Claim C6 witness: the two-record input is numeric and leaves a
nonempty feature matrix, so the stage takes the success branch. -/
theorem C6_failure_characterization_witness :
    hasStrField nonconstPairRecords = false ∧
    deriveFeatures nonconstPairRecords ≠ [] :=
  (C6_failure_characterization inlierPredict nonconstPairRecords).2.2.mp
    ⟨[], anomalyStage_nonconstPair⟩

/-- Claim C6 counterexample: exactly one usable record remains after
feature derivation — fewer than 2 — yet the detector succeeds with an
empty anomaly set instead of failing with `InvalidInput`. -/
theorem C6_counterexample :
    (deriveFeatures nonconstPairRecords).length = 1 ∧
    anomalyStage inlierPredict nonconstPairRecords = Except.ok [] := by
  refine ⟨?_, anomalyStage_nonconstPair⟩
  rw [deriveFeatures_nonconstPair]
  rfl

/-- Claim C9: whatever labels the ensemble assigns, every flagged
timestamp belongs to an input record other than the first, and with
strictly increasing timestamps the first record's timestamp is never
flagged. -/
theorem C9_flagged_subset (predict : List FeatureRow → List Int)
    (r0 : RawRecord) (rest : List RawRecord) (out : List Int)
    (hmono : List.Pairwise (fun a b => a.timestamp < b.timestamp) (r0 :: rest))
    (hrun : anomalyStage predict (r0 :: rest) = Except.ok out) :
    ∀ t ∈ out, t ∈ rest.map RawRecord.timestamp ∧ t ≠ r0.timestamp := by
  intro t ht
  unfold anomalyStage at hrun
  split at hrun
  · cases hrun
  · split at hrun
    · cases hrun
    · injection hrun with hout
      rw [← hout] at ht
      simp only [List.mem_filterMap] at ht
      obtain ⟨fl, hfl, hcond⟩ := ht
      split at hcond
      · injection hcond with ht2
        obtain ⟨g1, g2⟩ := fl
        have hf : g1 ∈ deriveFeatures (r0 :: rest) := (List.of_mem_zip hfl).1
        have hts := deriveFeatures_timestamp_mem _ _ hf
        subst ht2
        simp only [List.tail_cons] at hts
        refine ⟨hts, ?_⟩
        simp only [List.mem_map] at hts
        obtain ⟨rb, hrb, hteq⟩ := hts
        have hlt : r0.timestamp < rb.timestamp :=
          (List.pairwise_cons.mp hmono).1 rb hrb
        rw [← hteq]
        exact ne_of_gt hlt
      · cases hcond

/-- Claim C9 witness at three strictly increasing records with every
feature row flagged by the stand-in predictor. -/
theorem C9_flagged_subset_witness :
    (60 : Int) ∈ ([⟨60, .num 2, .num 3⟩, ⟨120, .num 5, .num 4⟩] :
      List RawRecord).map RawRecord.timestamp ∧ (60 : Int) ≠ (0 : Int) :=
  C9_flagged_subset outlierPredict ⟨0, .num 1, .num 1⟩
    [⟨60, .num 2, .num 3⟩, ⟨120, .num 5, .num 4⟩] [60, 120]
    (by decide) anomalyStage_triple 60 (by norm_num)

/-- Claim C10: every feature row that reaches the model comes from a
consecutive pair of fully numeric records — a record with a NaN close or
volume contributes no row and is silently excluded before the fit — and
NaN fields never trigger the non-numeric error. -/
theorem C10_nan_exclusion (predict : List FeatureRow → List Int)
    (records : List RawRecord) :
    (∀ f ∈ deriveFeatures records, ∃ p c,
      (p, c) ∈ records.zip records.tail ∧
      (∃ a b a2 b2, p.close = RawValue.num a ∧ p.volume_btc = RawValue.num b ∧
        c.close = RawValue.num a2 ∧ c.volume_btc = RawValue.num b2 ∧
        f = ⟨c.timestamp, |a2 - a|, |b2 - b|⟩)) ∧
    (hasStrField records = false →
      anomalyStage predict records ≠ Except.error StageError.nonNumeric) := by
  constructor
  · intro f hf
    obtain ⟨p, c, hmem, heq⟩ := mem_deriveFeatures records f hf
    obtain ⟨a, b, a2, b2, h1, h2, h3, h4, rfl⟩ := featureOf_eq_some p c f heq
    exact ⟨p, c, hmem, a, b, a2, b2, h1, h2, h3, h4, rfl⟩
  · intro hstr
    unfold anomalyStage
    rw [if_neg (by simp [hstr])]
    split <;> simp

/-- Claim C10 witness: with a NaN close in the middle of four records, the
only surviving feature row comes from the final fully numeric pair. -/
theorem C10_nan_exclusion_witness :
    ∃ p c, (p, c) ∈ nanDemoRecords.zip nanDemoRecords.tail ∧
      (∃ a b a2 b2, p.close = RawValue.num a ∧ p.volume_btc = RawValue.num b ∧
        c.close = RawValue.num a2 ∧ c.volume_btc = RawValue.num b2 ∧
        (⟨180, 2, 2⟩ : FeatureRow) = ⟨c.timestamp, |a2 - a|, |b2 - b|⟩) :=
  (C10_nan_exclusion inlierPredict nanDemoRecords).1 ⟨180, 2, 2⟩
    (by rw [deriveFeatures_nanDemo]; exact List.mem_singleton.mpr rfl)
